import Mathlib

/-!
Verification of the template similarity-and-clustering engine of the
`web-collector` repository.

The Python source is embedded shallowly:
* `collector.py`'s `WebsiteFeatures` dataclass becomes the structure
  `WebsiteFeatures`; the `dom_structure` dict tree becomes the mutual
  inductives `DomNode`/`DomForest` (a `DomNode.elem` is a dict carrying a
  `tag` key and a `children` list; `DomNode.malformed` is any other JSON
  value, which the traversals in `similarity.py` skip wholesale).
* `similarity.py`'s `SimilarityAnalyzer` methods become pure functions on
  these structures.  Python `float` arithmetic is modelled as exact
  arithmetic over `ℚ`.
* `bot.py`'s `handle_message` classification loop becomes
  `scanBest`/`classifyDecision`, and its persistence flow together with
  `database.py` becomes a small state machine over `DBState`.
-/

/- ================================================================
   Data model (collector.py, dataclass WebsiteFeatures)
   ================================================================ -/

mutual
/-- One node of the `dom_structure` JSON tree.  `elem tag children` is a
dict with a `tag` key (the only shape `similarity.py`'s traversals accept:
`isinstance(node, dict) and 'tag' in node`); `malformed` stands for every
other JSON value, which the traversals skip without recursing. -/
inductive DomNode where
  | elem (tag : String) (children : DomForest)
  | malformed

/-- The `children` list of a DOM node (`node.get('children', [])`). -/
inductive DomForest where
  | nil
  | cons (head : DomNode) (tail : DomForest)
end

/-- Number of children, `len(node.get('children', []))`. -/
def DomForest.length : DomForest → Nat
  | .nil => 0
  | .cons _ t => t.length + 1

/-- The `responsive_features` dict.  `emptyDict` models the empty dict `{}`
(falsy in Python, caught by `if not resp1 or not resp2`); `withKeys`
models a dict carrying the collector's `viewport` and `mediaQueries` keys.
`mediaQueries` reads the key with the source's `.get('mediaQueries', [])`
default. -/
inductive RespDict where
  | emptyDict
  | withKeys (viewport : Option String) (queries : List String)

/-- `resp.get('mediaQueries', [])`. -/
def RespDict.mediaQueries : RespDict → List String
  | .emptyDict => []
  | .withKeys _ qs => qs

/-- The `WebsiteFeatures` dataclass of collector.py.  Timestamps are kept
as the ISO strings they are serialized to; `performance_metrics` values are
modelled as exact rationals. -/
structure WebsiteFeatures where
  url : String
  dom_structure : DomNode
  css_classes : List String
  js_libraries : List String
  responsive_features : RespDict
  color_scheme : List String
  fonts : List String
  performance_metrics : List (String × ℚ)
  created_at : String
  updated_at : String

/- ================================================================
   String helpers used by similarity.py
   ================================================================ -/

/-- Python `str.lower()` (the class names and tags here are ASCII). -/
def strLower (s : String) : String := ⟨s.data.map Char.toLower⟩

/-- Python's substring test `pat in hay`. -/
def strContainsSub (hay pat : String) : Bool :=
  hay.data.tails.any (fun t => pat.data.isPrefixOf t)

/- ================================================================
   similarity.py : SimilarityAnalyzer._calculate_dom_similarity
   ================================================================ -/

/-- The `important_tags` set of `_calculate_dom_similarity.get_layout_sequence`. -/
def importantTags : List String :=
  ["div", "section", "main", "header", "footer", "nav", "aside"]

mutual
/-- `get_layout_sequence.traverse(node, depth)`: emit `"{depth}:{tag}"` for
every dict node whose tag is in `important_tags`, recursing into the
children of every dict node (structural or not); non-dict / tagless values
are skipped without recursing. -/
def get_layout_sequence_node : DomNode → Nat → List String
  | .elem tag children, depth =>
      (if tag ∈ importantTags then [toString depth ++ ":" ++ tag] else []) ++
      get_layout_sequence_forest children (depth + 1)
  | .malformed, _ => []

/-- Traversal of a children list, left to right, at a common depth. -/
def get_layout_sequence_forest : DomForest → Nat → List String
  | .nil, _ => []
  | .cons h t, depth => get_layout_sequence_node h depth ++ get_layout_sequence_forest t depth
end

/-- `traverse(dom)` with the default `depth=0`. -/
def get_layout_sequence (dom : DomNode) : List String := get_layout_sequence_node dom 0

/-- Length of the longest common subsequence of two token sequences: the
recurrence that `_calculate_dom_similarity`'s numpy dynamic program
(lines 84-92) computes bottom-up; `matrix[-1][-1]` is this value on the
full sequences. -/
def lcsLen : List String → List String → Nat
  | [], _ => 0
  | _ :: _, [] => 0
  | a :: as, b :: bs =>
      if a = b then lcsLen as bs + 1
      else max (lcsLen (a :: as) bs) (lcsLen as (b :: bs))
  termination_by l1 l2 => l1.length + l2.length

/-- `_calculate_dom_similarity`: `2·lcs / (len1 + len2)`, and `0` when both
layout sequences are empty. -/
def calculate_dom_similarity (dom1 dom2 : DomNode) : ℚ :=
  let seq1 := get_layout_sequence dom1
  let seq2 := get_layout_sequence dom2
  let lcs_length := lcsLen seq1 seq2
  if 0 < seq1.length + seq2.length then
    (2 * lcs_length : ℚ) / ((seq1.length : ℚ) + (seq2.length : ℚ))
  else 0

/- ================================================================
   similarity.py : SimilarityAnalyzer._calculate_css_similarity
   ================================================================ -/

/-- The `layout_keywords` set of `_calculate_css_similarity.filter_layout_classes`. -/
def layout_keywords : List String :=
  ["container", "wrapper", "header", "footer", "nav", "sidebar",
   "main", "content", "grid", "flex", "row", "col", "section"]

/-- `filter_layout_classes`: the set of classes whose lowercase form
contains at least one layout keyword. -/
def filter_layout_classes (classes : List String) : Finset String :=
  (classes.filter
    (fun cls => layout_keywords.any (fun keyword => strContainsSub (strLower cls) keyword))).toFinset

/-- `_calculate_css_similarity`: Jaccard index of the filtered class sets,
`0` when either filtered set is empty. -/
def calculate_css_similarity (classes1 classes2 : List String) : ℚ :=
  let layout_classes1 := filter_layout_classes classes1
  let layout_classes2 := filter_layout_classes classes2
  if layout_classes1 = ∅ ∨ layout_classes2 = ∅ then 0
  else
    let intersection := (layout_classes1 ∩ layout_classes2).card
    let union := (layout_classes1 ∪ layout_classes2).card
    if 0 < union then (intersection : ℚ) / (union : ℚ) else 0

/- ================================================================
   similarity.py : SimilarityAnalyzer._calculate_responsive_similarity
   ================================================================ -/

/-- Python's `\s` character class as used by `re.findall` on these ASCII
media-query strings. -/
def pythonWhitespace (c : Char) : Bool :=
  c = ' ' ∨ c = '\t' ∨ c = '\n' ∨ c = '\x0b' ∨ c = '\x0c' ∨ c = '\r'

/-- Match a literal character sequence at the head of the input, returning
the rest on success. -/
def dropLiteral : List Char → List Char → Option (List Char)
  | [], rest => some rest
  | _ :: _, [] => none
  | p :: ps, c :: cs => if p = c then dropLiteral ps cs else none

/-- `int()` of a (non-empty) string of decimal digits. -/
def digitsToNat (ds : List Char) : Nat :=
  ds.foldl (fun n c => 10 * n + (c.toNat - '0'.toNat)) 0

/-- Try to match the regex `min-width:\s*(\d+)px` anchored at the head of
the input; on success return the captured integer and the input after the
match.  (`\s*` and `\d+` are greedy; since whitespace, digits and the
literal `px` use disjoint character classes, greedy matching is exactly
the regex semantics.) -/
def matchMinWidthAt (s : List Char) : Option (Nat × List Char) :=
  match dropLiteral "min-width:".data s with
  | none => none
  | some r1 =>
    let r2 := r1.dropWhile pythonWhitespace
    let ds := r2.takeWhile Char.isDigit
    let r3 := r2.dropWhile Char.isDigit
    if ds.isEmpty then none
    else
      match dropLiteral "px".data r3 with
      | none => none
      | some r4 => some (digitsToNat ds, r4)

lemma dropLiteral_length {ps cs r : List Char} (h : dropLiteral ps cs = some r) :
    r.length + ps.length = cs.length := by
  induction ps generalizing cs with
  | nil => simp [dropLiteral] at h; simp [h]
  | cons p ps ih =>
    cases cs with
    | nil => simp [dropLiteral] at h
    | cons c cs =>
      by_cases hpc : p = c
      · simp [dropLiteral, hpc] at h
        have := ih h
        simp [List.length]
        omega
      · simp [dropLiteral, hpc] at h

lemma matchMinWidthAt_length {s : List Char} {n : Nat} {rest : List Char}
    (h : matchMinWidthAt s = some (n, rest)) : rest.length < s.length := by
  unfold matchMinWidthAt at h
  cases h1 : dropLiteral "min-width:".data s with
  | none => rw [h1] at h; simp at h
  | some r1 =>
    rw [h1] at h
    simp only at h
    split at h
    · simp at h
    · have hr1 : r1.length + 10 = s.length := by
        have := dropLiteral_length h1
        simpa using this
      cases h2 : dropLiteral "px".data (List.dropWhile Char.isDigit (List.dropWhile pythonWhitespace r1)) with
      | none => rw [h2] at h; simp at h
      | some r4 =>
        rw [h2] at h
        simp at h
        have hr4 : r4.length + 2 = (List.dropWhile Char.isDigit (List.dropWhile pythonWhitespace r1)).length := by
          simpa using dropLiteral_length h2
        have hd1 : (List.dropWhile Char.isDigit (List.dropWhile pythonWhitespace r1)).length ≤
            (List.dropWhile pythonWhitespace r1).length :=
          (List.dropWhile_suffix _).length_le
        have hd2 : (List.dropWhile pythonWhitespace r1).length ≤ r1.length :=
          (List.dropWhile_suffix _).length_le
        have hre : rest.length = r4.length := by rw [h.2.symm]
        omega

/-- The scan loop of `re.findall`, with an explicit step bound: at each
position try the anchored match; on success emit the capture and resume
after the match, otherwise advance one character.  Every step consumes at
least one character (`matchMinWidthAt_length`), so a bound equal to the
input length never truncates the scan. -/
def findallMinWidthGo : Nat → List Char → List Nat
  | 0, _ => []
  | _ + 1, [] => []
  | fuel + 1, c :: cs =>
    match matchMinWidthAt (c :: cs) with
    | some (n, rest) => n :: findallMinWidthGo fuel rest
    | none => findallMinWidthGo fuel cs

/-- `re.findall(r'min-width:\s*(\d+)px', query)` followed by `int`: scan
left to right, collect each non-overlapping match, continue after each
match's end. -/
def findallMinWidth (s : List Char) : List Nat := findallMinWidthGo s.length s

/-- `extract_breakpoints`: the deduplicated set of all `min-width` pixel
values found in any media-query string. -/
def extract_breakpoints (queries : List String) : Finset Nat :=
  ((queries.map (fun query => findallMinWidth query.data)).flatten).toFinset

/-- `_calculate_responsive_similarity`: `0` when either dict is empty or
either breakpoint set is empty; otherwise the number of first-set
breakpoints having a match within 100px in the second set, divided by the
larger set size. -/
def calculate_responsive_similarity (resp1 resp2 : RespDict) : ℚ :=
  match resp1, resp2 with
  | .emptyDict, _ => 0
  | _, .emptyDict => 0
  | .withKeys v1 q1, .withKeys v2 q2 =>
    let breakpoints1 := extract_breakpoints (RespDict.withKeys v1 q1).mediaQueries
    let breakpoints2 := extract_breakpoints (RespDict.withKeys v2 q2).mediaQueries
    if breakpoints1 = ∅ ∨ breakpoints2 = ∅ then 0
    else
      let similar_breakpoints :=
        (breakpoints1.filter
          (fun bp1 : ℕ => ∃ bp2 ∈ breakpoints2, ((bp1 : ℤ) - (bp2 : ℤ)).natAbs ≤ 100)).card
      (similar_breakpoints : ℚ) / (max breakpoints1.card breakpoints2.card : ℚ)

/- ================================================================
   similarity.py : SimilarityAnalyzer._calculate_layout_similarity
   ================================================================ -/

/-- The `layout_tags` mapping of `_determine_layout_type`. -/
def layout_tags : List (String × String) :=
  [("header", "header"), ("footer", "footer"), ("nav", "navigation"),
   ("main", "main-content"), ("aside", "sidebar"), ("section", "section"),
   ("article", "article"), ("div", "container")]

/-- `_determine_layout_type`: lowercase the tag, look it up, default `"other"`. -/
def determine_layout_type (tag : String) : String :=
  (layout_tags.lookup (strLower tag)).getD "other"

mutual
/-- `get_layout_structure.analyze_node`: emit a
`(parent_type, layout_type, child_count)` triple for every dict node and
recurse with this node's layout type as the parent type; non-dict values
are skipped without recursing. -/
def analyze_node : DomNode → String → List (String × String × Nat)
  | .elem tag children, parent_type =>
      (parent_type, determine_layout_type tag, children.length) ::
        analyze_forest children (determine_layout_type tag)
  | .malformed, _ => []

/-- Traversal of a children list under a common parent type. -/
def analyze_forest : DomForest → String → List (String × String × Nat)
  | .nil, _ => []
  | .cons h t, parent_type => analyze_node h parent_type ++ analyze_forest t parent_type
end

/-- `get_layout_structure(dom)`, rooted with the sentinel parent `'root'`. -/
def get_layout_structure (dom : DomNode) : List (String × String × Nat) :=
  analyze_node dom "root"

/-- The per-position test of `compare_structures`: same parent type, same
layout type, child counts within 2. -/
def structTripleMatch (p q : String × String × Nat) : Bool :=
  decide (p.1 = q.1 ∧ p.2.1 = q.2.1 ∧ ((p.2.2 : ℤ) - (q.2.2 : ℤ)).natAbs ≤ 2)

/-- `compare_structures`: positional matches up to the shorter length,
divided by the longer length; `0` when both traces are empty. -/
def compare_structures (struct1 struct2 : List (String × String × Nat)) : ℚ :=
  let max_len := max struct1.length struct2.length
  let matchCount := (struct1.zip struct2).countP (fun pq => structTripleMatch pq.1 pq.2)
  if 0 < max_len then (matchCount : ℚ) / (max_len : ℚ) else 0

/-- `_calculate_layout_similarity`. -/
def calculate_layout_similarity (dom1 dom2 : DomNode) : ℚ :=
  compare_structures (get_layout_structure dom1) (get_layout_structure dom2)

/- ================================================================
   similarity.py : SimilarityAnalyzer.calculate_similarity
   ================================================================ -/

/-- `calculate_similarity`: the fixed weighted sum
`0.5·dom + 0.3·css + 0.1·responsive + 0.1·layout`.  The source wraps the
computation in `try/except` returning `0.0`; on values of the typed data
model the computation is total, so the handler is unreachable here (the
raising conversion of malformed *stored* representatives is modelled
separately for the classification loop, see `scan_stored_templates`). -/
def calculate_similarity (site1 site2 : WebsiteFeatures) : ℚ :=
  0.5 * calculate_dom_similarity site1.dom_structure site2.dom_structure +
  0.3 * calculate_css_similarity site1.css_classes site2.css_classes +
  0.1 * calculate_responsive_similarity site1.responsive_features site2.responsive_features +
  0.1 * calculate_layout_similarity site1.dom_structure site2.dom_structure

/- ================================================================
   bot.py : handle_message, the classification decision (lines 133-169)
   ================================================================ -/

/-- The decision of §4.3's Clusterer, as acted on by `handle_message`. -/
inductive Decision where
  | assignToExisting (templateId : Nat) (similarity : ℚ)
  | createNew
  deriving DecidableEq

/-- One iteration of `handle_message`'s template loop: update the running
maximum and best template id when `similarity > max_similarity` (strict). -/
def scanStep (features : WebsiteFeatures) (acc : ℚ × Option Nat)
    (t : Nat × WebsiteFeatures) : ℚ × Option Nat :=
  let similarity := calculate_similarity features t.2
  if acc.1 < similarity then (similarity, some t.1) else acc

/-- The whole loop, started from `max_similarity = 0`,
`similar_template_id = None`. -/
def scanBest (features : WebsiteFeatures) (templates : List (Nat × WebsiteFeatures)) :
    ℚ × Option Nat :=
  templates.foldl (scanStep features) (0, none)

/-- The decision after the scan:
`if max_similarity >= threshold and similar_template_id:` assign, else
create.  Python truthiness of `similar_template_id` is `None`-ness or
id `0` (SQLite row ids start at 1). -/
def classifyDecision (threshold : ℚ) (features : WebsiteFeatures)
    (templates : List (Nat × WebsiteFeatures)) : Decision :=
  match scanBest features templates with
  | (max_similarity, some tid) =>
      if threshold ≤ max_similarity ∧ tid ≠ 0 then
        Decision.assignToExisting tid max_similarity
      else Decision.createNew
  | (_, none) => Decision.createNew

/-- Specification-side view of the scan: the maximum similarity over the
supplied templates (0 for an empty list). -/
def bestScoreSpec (features : WebsiteFeatures)
    (templates : List (Nat × WebsiteFeatures)) : ℚ :=
  (templates.map (fun t => calculate_similarity features t.2)).foldl max 0

/-- Specification-side view of the tie-break: the first-supplied template
achieving the maximum similarity. -/
def firstBestTemplate (features : WebsiteFeatures)
    (templates : List (Nat × WebsiteFeatures)) : Option (Nat × WebsiteFeatures) :=
  templates.find? (fun t => decide (calculate_similarity features t.2 = bestScoreSpec features templates))

/- ================================================================
   bot.py lines 139-149 on raw stored rows (for the malformed-
   representative policy)
   ================================================================ -/

/-- A template's stored representative as read back from the database:
`json.loads` of the `features` column.  Rebuilding the `WebsiteFeatures`
dataclass from it (bot.py lines 141-143: two `datetime.fromisoformat`
calls and the keyword-argument constructor) either succeeds (`some`) or
raises (`none`, e.g. a timestamp string that is not ISO-formatted). -/
def StoredRepresentative : Type := Option WebsiteFeatures

/-- The template loop of `handle_message` as run on raw stored rows.  The
conversion to `WebsiteFeatures` happens inside the loop body with no
per-template handler, so a raising conversion escapes the whole scan
(only the outer `try` of `handle_message` catches it, failing the whole
classification). -/
def scan_stored_templates (features : WebsiteFeatures) :
    List (Nat × StoredRepresentative) → ℚ × Option Nat → Except Unit (ℚ × Option Nat)
  | [], acc => Except.ok acc
  | (tid, stored) :: rest, acc =>
      match stored with
      | none => Except.error ()
      | some rep =>
          scan_stored_templates features rest
            (if acc.1 < calculate_similarity features rep
             then (calculate_similarity features rep, some tid) else acc)

/-- Decision phase on raw stored rows: `Except.error` models the
classification aborting with `handle_message`'s error reply. -/
def classify_stored (threshold : ℚ) (features : WebsiteFeatures)
    (templates : List (Nat × StoredRepresentative)) : Except Unit Decision :=
  match scan_stored_templates features templates (0, none) with
  | Except.error e => Except.error e
  | Except.ok (max_similarity, some tid) =>
      Except.ok (if threshold ≤ max_similarity ∧ tid ≠ 0 then
        Decision.assignToExisting tid max_similarity else Decision.createNew)
  | Except.ok (_, none) => Except.ok Decision.createNew

/- ================================================================
   database.py : the persistent state and its operations
   ================================================================ -/

/-- A row of the `websites` table. -/
structure WebsiteRow where
  id : Nat
  url : String
  template_id : Option Nat
  first_analyzed_at : Nat
  last_updated_at : Nat
  status : String
  features : WebsiteFeatures

/-- A row of the `templates` table. -/
structure TemplateRow where
  id : Nat
  created_at : Nat
  website_count : Nat
  feature_summary : WebsiteFeatures
  last_updated_at : Nat

/-- The SQLite database: both tables plus the AUTOINCREMENT counters
(row ids start at 1). -/
structure DBState where
  websites : List WebsiteRow
  templates : List TemplateRow
  nextWebsiteId : Nat
  nextTemplateId : Nat

/-- The empty database produced by `Database.initialize`. -/
def DBState.empty : DBState := ⟨[], [], 1, 1⟩

/-- `Database.add_website`: INSERT a new website row; the UNIQUE
constraint on `url` makes the insert raise `IntegrityError` when the url
already has a row (`add_website` logs and re-raises). -/
def add_website (db : DBState) (now : Nat) (url : String) (features : WebsiteFeatures) :
    Except String (DBState × Nat) :=
  if db.websites.any (fun w => w.url = url) then
    Except.error "UNIQUE constraint failed: websites.url"
  else
    Except.ok (⟨db.websites ++ [⟨db.nextWebsiteId, url, none, now, now, "analyzed", features⟩],
      db.templates, db.nextWebsiteId + 1, db.nextTemplateId⟩, db.nextWebsiteId)

/-- `Database.update_website_template`: UPDATE the row with the given id,
setting `template_id` and `last_updated_at` (a no-op when no row has the
id). -/
def update_website_template (db : DBState) (now : Nat) (website_id template_id : Nat) : DBState :=
  ⟨db.websites.map (fun w =>
      if w.id = website_id then
        ⟨w.id, w.url, some template_id, w.first_analyzed_at, now, w.status, w.features⟩
      else w),
    db.templates, db.nextWebsiteId, db.nextTemplateId⟩

/-- `Database.update_template_count`: recount the websites pointing at the
template and write the count back. -/
def update_template_count (db : DBState) (now : Nat) (template_id : Nat) : DBState :=
  let count := (db.websites.filter (fun w => w.template_id = some template_id)).length
  ⟨db.websites,
    db.templates.map (fun t =>
      if t.id = template_id then ⟨t.id, t.created_at, count, t.feature_summary, now⟩ else t),
    db.nextWebsiteId, db.nextTemplateId⟩

/-- `Database.create_template_from_website`: read the website's features,
INSERT a template with `website_count = 1` carrying them as
`feature_summary`, and point the website at it — all on one connection,
committed once (raises when the website id does not exist). -/
def create_template_from_website (db : DBState) (now : Nat) (website_id : Nat) :
    Except String (DBState × Nat) :=
  match db.websites.find? (fun w => w.id = website_id) with
  | none => Except.error "Website not found"
  | some w =>
      Except.ok (⟨db.websites.map (fun x =>
          if x.id = website_id then
            ⟨x.id, x.url, some db.nextTemplateId, x.first_analyzed_at, x.last_updated_at,
              x.status, x.features⟩
          else x),
        db.templates ++ [⟨db.nextTemplateId, now, 1, w.features, now⟩],
        db.nextWebsiteId, db.nextTemplateId + 1⟩, db.nextTemplateId)

/-- `Database.cleanup_old_records`: DELETE websites whose
`last_updated_at` is older than the cutoff; template rows and their
counts are left untouched. -/
def cleanup_old_records (db : DBState) (cutoff : Nat) : DBState :=
  ⟨db.websites.filter (fun w => ¬ w.last_updated_at < cutoff),
    db.templates, db.nextWebsiteId, db.nextTemplateId⟩

/-- The minimum-id website currently assigned to the template (the
representative row selected by `get_all_templates`' sub-query
`SELECT MIN(id) ... GROUP BY template_id`). -/
def min_member (db : DBState) (template_id : Nat) : Option WebsiteRow :=
  (db.websites.filter (fun w => w.template_id = some template_id)).foldl
    (fun acc w => match acc with
      | none => some w
      | some v => if w.id < v.id then some w else some v)
    none

/-- `Database.get_all_templates`: each template paired with the features
of its minimum-id member website; templates without members drop out of
the JOIN. -/
def get_all_templates (db : DBState) : List (Nat × WebsiteFeatures) :=
  db.templates.filterMap (fun t =>
    match min_member db t.id with
    | some w => some (t.id, w.features)
    | none => none)

/- ================================================================
   bot.py : handle_message, persistence flow (lines 122-169)
   ================================================================ -/

/-- What `handle_message` reports for a classified URL. -/
inductive ClassifyOutcome where
  | assigned (templateId : Nat) (similarity : ℚ)
  | created (templateId : Nat)
  deriving DecidableEq

/-- The persistence flow of one `handle_message` call on an analyzable
URL: store the website, scan the templates, then either link + recount
(two separate transactions) or create a template.  `none` as outcome
models the outer `except` replying with an error message: an exception in
`add_website` leaves no partial write (the failed INSERT is the first
statement); an exception in `create_template_from_website` leaves the
already committed website row behind. -/
def handle_message_classify (threshold : ℚ) (db : DBState) (now : Nat)
    (url : String) (features : WebsiteFeatures) : DBState × Option ClassifyOutcome :=
  match add_website db now url features with
  | Except.error _ => (db, none)
  | Except.ok (db1, website_id) =>
      match classifyDecision threshold features (get_all_templates db1) with
      | Decision.assignToExisting tid sim =>
          let db2 := update_website_template db1 now website_id tid
          let db3 := update_template_count db2 now tid
          (db3, some (ClassifyOutcome.assigned tid sim))
      | Decision.createNew =>
          match create_template_from_website db1 now website_id with
          | Except.ok (db2, tid) => (db2, some (ClassifyOutcome.created tid))
          | Except.error _ => (db1, none)

/-- The two persistence calls of the assignment branch (bot.py lines
161-162), each on its own connection with its own commit.  `failSecond`
injects a PersistenceFailure into `update_template_count` (whose
`except` logs and re-raises); the returned flag tells whether both calls
completed.  On failure the first, already committed write remains. -/
def assign_commit_steps (db : DBState) (now : Nat) (website_id template_id : Nat)
    (failSecond : Bool) : DBState × Bool :=
  let db1 := update_website_template db now website_id template_id
  if failSecond then (db1, false)
  else (update_template_count db1 now template_id, true)

/- ================================================================
   Operation sequences and the member-count invariant (§8, claim C9)
   ================================================================ -/

/-- One high-level operation against the store. -/
inductive Op where
  | classify (now : Nat) (url : String) (features : WebsiteFeatures)
  | cleanup (cutoff : Nat)

/-- Whether an operation is a record cleanup. -/
def Op.isCleanup : Op → Bool
  | .classify _ _ _ => false
  | .cleanup _ => true

/-- Execute one operation. -/
def execOp (threshold : ℚ) (db : DBState) : Op → DBState
  | .classify now url features => (handle_message_classify threshold db now url features).1
  | .cleanup cutoff => cleanup_old_records db cutoff

/-- Execute a sequence of operations, left to right. -/
def execOps (threshold : ℚ) (db : DBState) : List Op → DBState
  | [] => db
  | op :: ops => execOps threshold (execOp threshold db op) ops

/-- §3's template invariant: every template's `website_count` equals the
number of websites assigned to it, and is at least 1. -/
def memberCountInv (db : DBState) : Prop :=
  ∀ t ∈ db.templates,
    t.website_count = (db.websites.filter (fun w => w.template_id = some t.id)).length ∧
    1 ≤ t.website_count

/-- Structural well-formedness maintained by the schema: distinct row
ids below the AUTOINCREMENT counters, and website→template links only to
already allocated template ids. -/
def dbWellFormed (db : DBState) : Prop :=
  db.templates.Pairwise (fun a b => a.id ≠ b.id) ∧
  (∀ t ∈ db.templates, t.id < db.nextTemplateId) ∧
  db.websites.Pairwise (fun a b => a.id ≠ b.id) ∧
  (∀ w ∈ db.websites, w.id < db.nextWebsiteId) ∧
  (∀ w ∈ db.websites, ∀ j, w.template_id = some j → j < db.nextTemplateId)

/- ================================================================
   Concrete sample inputs (used by witnesses and counterexamples)
   ================================================================ -/

/-- A feature vector whose four derived views are all non-empty: one
structural `div`, one layout class, one `min-width` breakpoint. -/
def sampleRich : WebsiteFeatures :=
  ⟨"https://rich.example", DomNode.elem "div" DomForest.nil, ["container"], [],
    RespDict.withKeys (some "width=device-width") ["(min-width: 768px)"],
    [], [], [], "2024-01-01T00:00:00", "2024-01-01T00:00:00"⟩

/-- A feature vector that is non-empty (its url, DOM tree, class list,
media-query list are all populated) but whose derived views all degrade:
no structural tag, no layout-keyword class, no `min-width` breakpoint. -/
def samplePlain : WebsiteFeatures :=
  ⟨"https://plain.example",
    DomNode.elem "body" (DomForest.cons (DomNode.elem "p" DomForest.nil) DomForest.nil),
    ["btn-primary"], ["jQuery"],
    RespDict.withKeys (some "width=device-width") ["(max-width: 500px)"],
    ["rgb(0, 0, 0)"], ["Arial"], [("loadTime", 120)],
    "2024-01-01T00:00:00", "2024-01-01T00:00:00"⟩

/-- A feature vector with every field empty or malformed. -/
def sampleEmpty : WebsiteFeatures :=
  ⟨"https://empty.example", DomNode.malformed, [], [], RespDict.withKeys none [],
    [], [], [], "2024-01-01T00:00:00", "2024-01-01T00:00:00"⟩

/-- Breakpoints `{0, 200}` against `{100}`: every element of the first
set matches into the second, only one element of the second matches back. -/
def sampleBpA : WebsiteFeatures :=
  ⟨"https://a.example", DomNode.malformed, [], [],
    RespDict.withKeys none ["(min-width: 0px)", "(min-width: 200px)"],
    [], [], [], "2024-01-01T00:00:00", "2024-01-01T00:00:00"⟩

/-- The swap partner of `sampleBpA`. -/
def sampleBpB : WebsiteFeatures :=
  ⟨"https://b.example", DomNode.malformed, [], [],
    RespDict.withKeys none ["(min-width: 100px)"],
    [], [], [], "2024-01-01T00:00:00", "2024-01-01T00:00:00"⟩

/- ================================================================
   Lemmas: the LCS recurrence
   ================================================================ -/

lemma lcsLen_le_aux :
    ∀ n (a b : List String), a.length + b.length ≤ n →
      lcsLen a b ≤ a.length ∧ lcsLen a b ≤ b.length := by
  intro n
  induction n with
  | zero =>
    intro a b h
    cases a with
    | nil => simp [lcsLen]
    | cons x as => simp at h
  | succ n ih =>
    intro a b h
    cases a with
    | nil => simp [lcsLen]
    | cons x as =>
      cases b with
      | nil => simp [lcsLen]
      | cons y bs =>
        simp only [lcsLen]
        by_cases hxy : x = y
        · simp only [if_pos hxy]
          have := ih as bs (by simp at h ⊢; omega)
          simp only [List.length_cons]
          omega
        · simp only [if_neg hxy]
          have h1 := ih (x :: as) bs (by simp at h ⊢; omega)
          have h2 := ih as (y :: bs) (by simp at h ⊢; omega)
          simp only [List.length_cons] at *
          omega

lemma lcsLen_le_left (a b : List String) : lcsLen a b ≤ a.length :=
  (lcsLen_le_aux (a.length + b.length) a b le_rfl).1

lemma lcsLen_le_right (a b : List String) : lcsLen a b ≤ b.length :=
  (lcsLen_le_aux (a.length + b.length) a b le_rfl).2

lemma lcsLen_self (a : List String) : lcsLen a a = a.length := by
  induction a with
  | nil => simp [lcsLen]
  | cons x as ih => simp [lcsLen, ih]

lemma lcsLen_comm_aux :
    ∀ n (a b : List String), a.length + b.length ≤ n → lcsLen a b = lcsLen b a := by
  intro n
  induction n with
  | zero =>
    intro a b h
    cases a with
    | nil =>
      cases b with
      | nil => rfl
      | cons y bs => simp at h
    | cons x as => simp at h
  | succ n ih =>
    intro a b h
    cases a with
    | nil =>
      cases b with
      | nil => rfl
      | cons y bs => simp [lcsLen]
    | cons x as =>
      cases b with
      | nil => simp [lcsLen]
      | cons y bs =>
        simp only [lcsLen]
        by_cases hxy : x = y
        · simp only [if_pos hxy, if_pos hxy.symm]
          rw [ih as bs (by simp at h ⊢; omega)]
        · simp only [if_neg hxy, if_neg (Ne.symm hxy)]
          rw [ih (x :: as) bs (by simp at h ⊢; omega),
            ih as (y :: bs) (by simp at h ⊢; omega), Nat.max_comm]

lemma lcsLen_comm (a b : List String) : lcsLen a b = lcsLen b a :=
  lcsLen_comm_aux (a.length + b.length) a b le_rfl

lemma lcsLen_exists_common_aux :
    ∀ n (a b : List String), a.length + b.length ≤ n →
      ∃ l : List String, l.Sublist a ∧ l.Sublist b ∧ l.length = lcsLen a b := by
  intro n
  induction n with
  | zero =>
    intro a b h
    cases a with
    | nil => exact ⟨[], List.nil_sublist _, List.nil_sublist _, by simp [lcsLen]⟩
    | cons x as => simp at h
  | succ n ih =>
    intro a b h
    cases a with
    | nil => exact ⟨[], List.nil_sublist _, List.nil_sublist _, by simp [lcsLen]⟩
    | cons x as =>
      cases b with
      | nil => exact ⟨[], List.nil_sublist _, List.nil_sublist _, by simp [lcsLen]⟩
      | cons y bs =>
        by_cases hxy : x = y
        · subst hxy
          obtain ⟨l, hl1, hl2, hl3⟩ := ih as bs (by simp at h ⊢; omega)
          exact ⟨x :: l, List.Sublist.cons₂ x hl1, List.Sublist.cons₂ x hl2,
            by simp [lcsLen, hl3]⟩
        · rcases le_total (lcsLen (x :: as) bs) (lcsLen as (y :: bs)) with hle | hle
          · obtain ⟨l, hl1, hl2, hl3⟩ := ih as (y :: bs) (by simp at h ⊢; omega)
            refine ⟨l, List.Sublist.cons x hl1, hl2, ?_⟩
            simp only [lcsLen, if_neg hxy]
            omega
          · obtain ⟨l, hl1, hl2, hl3⟩ := ih (x :: as) bs (by simp at h ⊢; omega)
            refine ⟨l, hl1, List.Sublist.cons y hl2, ?_⟩
            simp only [lcsLen, if_neg hxy]
            omega

/-- There is a common subsequence of the length the recurrence computes. -/
lemma lcsLen_exists_common (a b : List String) :
    ∃ l : List String, l.Sublist a ∧ l.Sublist b ∧ l.length = lcsLen a b :=
  lcsLen_exists_common_aux (a.length + b.length) a b le_rfl

lemma cons_sublist_cons_tail {c x : String} {cl as : List String}
    (h : (c :: cl).Sublist (x :: as)) : cl.Sublist as := by
  cases h with
  | cons _ h => exact (List.sublist_cons_self c cl).trans h
  | cons₂ _ h => exact h

lemma cons_sublist_of_ne {c x : String} {cl as : List String}
    (h : (c :: cl).Sublist (x :: as)) (hne : c ≠ x) : (c :: cl).Sublist as := by
  cases h with
  | cons _ h => exact h
  | cons₂ _ h => exact absurd rfl hne

lemma lcsLen_ge_common_aux :
    ∀ n (a b l : List String), a.length + b.length ≤ n →
      l.Sublist a → l.Sublist b → l.length ≤ lcsLen a b := by
  intro n
  induction n with
  | zero =>
    intro a b l h h1 _
    cases a with
    | nil => simp [List.sublist_nil.mp h1, lcsLen]
    | cons x as => simp at h
  | succ n ih =>
    intro a b l h h1 h2
    cases a with
    | nil => simp [List.sublist_nil.mp h1, lcsLen]
    | cons x as =>
      cases b with
      | nil => simp [List.sublist_nil.mp h2, lcsLen]
      | cons y bs =>
        by_cases hxy : x = y
        · subst hxy
          cases l with
          | nil => simp
          | cons c cl =>
            have h1' := cons_sublist_cons_tail h1
            have h2' := cons_sublist_cons_tail h2
            have := ih as bs cl (by simp at h ⊢; omega) h1' h2'
            have heq : lcsLen (x :: as) (x :: bs) = lcsLen as bs + 1 := by
              simp [lcsLen]
            simp only [List.length_cons, heq]
            omega
        · cases l with
          | nil => simp
          | cons c cl =>
            simp only [lcsLen, if_neg hxy]
            by_cases hcx : c = x
            · have h2' : (c :: cl).Sublist bs :=
                cons_sublist_of_ne h2 (by rw [hcx]; exact hxy)
              have := ih (x :: as) bs (c :: cl) (by simp at h ⊢; omega) h1 h2'
              omega
            · have h1' : (c :: cl).Sublist as := cons_sublist_of_ne h1 hcx
              have := ih as (y :: bs) (c :: cl) (by simp at h ⊢; omega) h1' h2
              omega

/-- No common subsequence is longer than what the recurrence computes. -/
lemma lcsLen_ge_common {a b l : List String} (h1 : l.Sublist a) (h2 : l.Sublist b) :
    l.length ≤ lcsLen a b :=
  lcsLen_ge_common_aux (a.length + b.length) a b l le_rfl h1 h2

/- ================================================================
   Lemmas: the four sub-metrics
   ================================================================ -/

lemma calculate_dom_similarity_nonneg (d1 d2 : DomNode) :
    0 ≤ calculate_dom_similarity d1 d2 := by
  simp only [calculate_dom_similarity]
  split
  · positivity
  · exact le_refl 0

lemma calculate_dom_similarity_le_one (d1 d2 : DomNode) :
    calculate_dom_similarity d1 d2 ≤ 1 := by
  simp only [calculate_dom_similarity]
  split
  · rename_i hpos
    rw [div_le_one (by exact_mod_cast hpos)]
    have h1 := lcsLen_le_left (get_layout_sequence d1) (get_layout_sequence d2)
    have h2 := lcsLen_le_right (get_layout_sequence d1) (get_layout_sequence d2)
    have : 2 * lcsLen (get_layout_sequence d1) (get_layout_sequence d2) ≤
        (get_layout_sequence d1).length + (get_layout_sequence d2).length := by omega
    exact_mod_cast this
  · exact zero_le_one

lemma calculate_dom_similarity_comm (d1 d2 : DomNode) :
    calculate_dom_similarity d1 d2 = calculate_dom_similarity d2 d1 := by
  simp only [calculate_dom_similarity]
  rw [lcsLen_comm, Nat.add_comm, add_comm ((get_layout_sequence d1).length : ℚ)]

lemma calculate_dom_similarity_self {d : DomNode} (h : get_layout_sequence d ≠ []) :
    calculate_dom_similarity d d = 1 := by
  simp only [calculate_dom_similarity]
  have hlen : 0 < (get_layout_sequence d).length := List.length_pos.mpr h
  rw [if_pos (by omega), lcsLen_self]
  have hQ : (0 : ℚ) < (get_layout_sequence d).length := by exact_mod_cast hlen
  field_simp
  ring

lemma calculate_css_similarity_nonneg (c1 c2 : List String) :
    0 ≤ calculate_css_similarity c1 c2 := by
  simp only [calculate_css_similarity]
  split
  · exact le_refl 0
  · split
    · positivity
    · exact le_refl 0

lemma calculate_css_similarity_le_one (c1 c2 : List String) :
    calculate_css_similarity c1 c2 ≤ 1 := by
  simp only [calculate_css_similarity]
  split
  · exact zero_le_one
  · split
    · rename_i hpos
      rw [div_le_one (by exact_mod_cast hpos)]
      have hsub : filter_layout_classes c1 ∩ filter_layout_classes c2 ⊆
          filter_layout_classes c1 ∪ filter_layout_classes c2 :=
        subset_trans Finset.inter_subset_left Finset.subset_union_left
      exact_mod_cast Finset.card_le_card hsub
    · exact zero_le_one

lemma calculate_css_similarity_comm (c1 c2 : List String) :
    calculate_css_similarity c1 c2 = calculate_css_similarity c2 c1 := by
  simp only [calculate_css_similarity]
  rw [Finset.inter_comm, Finset.union_comm]
  exact if_congr or_comm rfl rfl

lemma calculate_css_similarity_self {c : List String} (h : filter_layout_classes c ≠ ∅) :
    calculate_css_similarity c c = 1 := by
  simp only [calculate_css_similarity]
  rw [if_neg (by simp [h]), Finset.inter_self, Finset.union_self]
  have hpos : 0 < (filter_layout_classes c).card :=
    Finset.card_pos.mpr (Finset.nonempty_iff_ne_empty.mpr h)
  rw [if_pos hpos]
  have : ((filter_layout_classes c).card : ℚ) ≠ 0 := by exact_mod_cast hpos.ne'
  field_simp

lemma calculate_responsive_similarity_nonneg (r1 r2 : RespDict) :
    0 ≤ calculate_responsive_similarity r1 r2 := by
  cases r1 with
  | emptyDict => cases r2 <;> simp [calculate_responsive_similarity]
  | withKeys v1 q1 =>
    cases r2 with
    | emptyDict => simp [calculate_responsive_similarity]
    | withKeys v2 q2 =>
      simp only [calculate_responsive_similarity]
      split
      · exact le_refl 0
      · positivity

lemma calculate_responsive_similarity_le_one (r1 r2 : RespDict) :
    calculate_responsive_similarity r1 r2 ≤ 1 := by
  cases r1 with
  | emptyDict => cases r2 <;> simp [calculate_responsive_similarity]
  | withKeys v1 q1 =>
    cases r2 with
    | emptyDict => simp [calculate_responsive_similarity]
    | withKeys v2 q2 =>
      simp only [calculate_responsive_similarity, RespDict.mediaQueries]
      split
      · exact zero_le_one
      · rename_i hne
        have hb1 : (extract_breakpoints q1).Nonempty := by
          rw [Finset.nonempty_iff_ne_empty]
          intro hc
          exact hne (Or.inl hc)
        have hpos : 0 < max (extract_breakpoints q1).card (extract_breakpoints q2).card := by
          have := Finset.card_pos.mpr hb1
          omega
        have hposQ : (0 : ℚ) < max ((extract_breakpoints q1).card : ℚ)
            ((extract_breakpoints q2).card : ℚ) := by
          have : ((0 : ℕ) : ℚ) < ((max (extract_breakpoints q1).card
              (extract_breakpoints q2).card : ℕ) : ℚ) := by exact_mod_cast hpos
          simpa [Nat.cast_max] using this
        rw [div_le_one hposQ]
        have hfil : (Finset.filter
            (fun bp1 : ℕ => ∃ bp2 ∈ extract_breakpoints q2,
              ((bp1 : ℤ) - (bp2 : ℤ)).natAbs ≤ 100)
            (extract_breakpoints q1)).card ≤ (extract_breakpoints q1).card :=
          Finset.card_le_card (Finset.filter_subset _ _)
        calc ((Finset.filter (fun bp1 : ℕ => ∃ bp2 ∈ extract_breakpoints q2,
                ((bp1 : ℤ) - (bp2 : ℤ)).natAbs ≤ 100) (extract_breakpoints q1)).card : ℚ)
            ≤ ((extract_breakpoints q1).card : ℚ) := by exact_mod_cast hfil
          _ ≤ max ((extract_breakpoints q1).card : ℚ) ((extract_breakpoints q2).card : ℚ) :=
              le_max_left _ _

lemma calculate_responsive_similarity_self {v : Option String} {q : List String}
    (h : extract_breakpoints q ≠ ∅) :
    calculate_responsive_similarity (RespDict.withKeys v q) (RespDict.withKeys v q) = 1 := by
  simp only [calculate_responsive_similarity, RespDict.mediaQueries]
  rw [if_neg (by simp [h])]
  have hfil : Finset.filter
      (fun bp1 : ℕ => ∃ bp2 ∈ extract_breakpoints q, ((bp1 : ℤ) - (bp2 : ℤ)).natAbs ≤ 100)
      (extract_breakpoints q) = extract_breakpoints q := by
    apply Finset.filter_true_of_mem
    intro x hx
    exact ⟨x, hx, by simp⟩
  rw [hfil, max_self]
  have hpos : 0 < (extract_breakpoints q).card :=
    Finset.card_pos.mpr (Finset.nonempty_iff_ne_empty.mpr h)
  have : ((extract_breakpoints q).card : ℚ) ≠ 0 := by exact_mod_cast hpos.ne'
  field_simp

lemma structTripleMatch_self (p : String × String × Nat) : structTripleMatch p p = true := by
  simp [structTripleMatch]

lemma structTripleMatch_comm (p q : String × String × Nat) :
    structTripleMatch p q = structTripleMatch q p := by
  simp only [structTripleMatch]
  apply decide_eq_decide.mpr
  constructor
  · rintro ⟨h1, h2, h3⟩
    exact ⟨h1.symm, h2.symm, by omega⟩
  · rintro ⟨h1, h2, h3⟩
    exact ⟨h1.symm, h2.symm, by omega⟩

lemma countP_zip_self (l : List (String × String × Nat)) :
    (l.zip l).countP (fun pq => structTripleMatch pq.1 pq.2) = l.length := by
  induction l with
  | nil => simp
  | cons p rest ih => simp [List.countP_cons, structTripleMatch_self, ih]

lemma countP_zip_comm (l1 l2 : List (String × String × Nat)) :
    (l1.zip l2).countP (fun pq => structTripleMatch pq.1 pq.2) =
      (l2.zip l1).countP (fun pq => structTripleMatch pq.1 pq.2) := by
  induction l1 generalizing l2 with
  | nil => simp
  | cons p rest ih =>
    cases l2 with
    | nil => simp
    | cons q rest2 =>
      simp [List.countP_cons, ih rest2, structTripleMatch_comm p q]

lemma compare_structures_nonneg (s1 s2 : List (String × String × Nat)) :
    0 ≤ compare_structures s1 s2 := by
  simp only [compare_structures]
  split
  · positivity
  · exact le_refl 0

lemma compare_structures_le_one (s1 s2 : List (String × String × Nat)) :
    compare_structures s1 s2 ≤ 1 := by
  simp only [compare_structures]
  split
  · rename_i hpos
    rw [div_le_one (by exact_mod_cast hpos)]
    have h1 : (s1.zip s2).countP (fun pq => structTripleMatch pq.1 pq.2) ≤
        (s1.zip s2).length := List.countP_le_length _
    have h2 : (s1.zip s2).length = min s1.length s2.length := List.length_zip _ _
    have : (s1.zip s2).countP (fun pq => structTripleMatch pq.1 pq.2) ≤
        max s1.length s2.length := by omega
    exact_mod_cast this
  · exact zero_le_one

lemma compare_structures_comm (s1 s2 : List (String × String × Nat)) :
    compare_structures s1 s2 = compare_structures s2 s1 := by
  simp only [compare_structures]
  rw [countP_zip_comm, Nat.max_comm]

lemma compare_structures_self {s : List (String × String × Nat)} (h : s ≠ []) :
    compare_structures s s = 1 := by
  simp only [compare_structures]
  have hlen : 0 < s.length := List.length_pos.mpr h
  rw [if_pos (by omega), countP_zip_self, Nat.max_self]
  have : (s.length : ℚ) ≠ 0 := by exact_mod_cast hlen.ne'
  field_simp

lemma calculate_layout_similarity_nonneg (d1 d2 : DomNode) :
    0 ≤ calculate_layout_similarity d1 d2 := compare_structures_nonneg _ _

lemma calculate_layout_similarity_le_one (d1 d2 : DomNode) :
    calculate_layout_similarity d1 d2 ≤ 1 := compare_structures_le_one _ _

lemma calculate_layout_similarity_comm (d1 d2 : DomNode) :
    calculate_layout_similarity d1 d2 = calculate_layout_similarity d2 d1 :=
  compare_structures_comm _ _

/- ================================================================
   Lemmas: the weighted total
   ================================================================ -/

lemma calculate_similarity_nonneg (a b : WebsiteFeatures) :
    0 ≤ calculate_similarity a b := by
  unfold calculate_similarity
  have h1 := calculate_dom_similarity_nonneg a.dom_structure b.dom_structure
  have h2 := calculate_css_similarity_nonneg a.css_classes b.css_classes
  have h3 := calculate_responsive_similarity_nonneg a.responsive_features b.responsive_features
  have h4 := calculate_layout_similarity_nonneg a.dom_structure b.dom_structure
  nlinarith

lemma calculate_similarity_le_one (a b : WebsiteFeatures) :
    calculate_similarity a b ≤ 1 := by
  unfold calculate_similarity
  have h1 := calculate_dom_similarity_le_one a.dom_structure b.dom_structure
  have h2 := calculate_css_similarity_le_one a.css_classes b.css_classes
  have h3 := calculate_responsive_similarity_le_one a.responsive_features b.responsive_features
  have h4 := calculate_layout_similarity_le_one a.dom_structure b.dom_structure
  nlinarith

/- ================================================================
   Lemmas: the template scan of handle_message
   ================================================================ -/

lemma le_foldl_max (m : ℚ) (l : List ℚ) : m ≤ l.foldl max m := by
  induction l generalizing m with
  | nil => simp
  | cons x xs ih => exact le_trans (le_max_left m x) (ih (max m x))

lemma foldl_max_eq_or_mem (l : List ℚ) : ∀ m : ℚ, l.foldl max m = m ∨ l.foldl max m ∈ l := by
  induction l with
  | nil => intro m; simp
  | cons x xs ih =>
    intro m
    rw [List.foldl_cons]
    rcases ih (max m x) with h | h
    · rcases max_choice m x with hc | hc
      · left; rw [h, hc]
      · right; rw [h, hc]; exact List.mem_cons_self x xs
    · right; exact List.mem_cons_of_mem x h

/-- Characterization of the scan loop: the running maximum becomes the
fold of `max` over the scores, and the recorded template id is the first
template achieving that maximum, provided the maximum strictly exceeds
the starting accumulator (otherwise the accumulator's id survives). -/
lemma scan_foldl_spec (f : WebsiteFeatures) (ts : List (Nat × WebsiteFeatures)) :
    ∀ (m : ℚ) (b : Option Nat),
      ts.foldl (scanStep f) (m, b) =
        ((ts.map (fun u => calculate_similarity f u.2)).foldl max m,
          if m < (ts.map (fun u => calculate_similarity f u.2)).foldl max m then
            (ts.find? (fun u => decide (calculate_similarity f u.2 =
              (ts.map (fun u => calculate_similarity f u.2)).foldl max m))).map Prod.fst
          else b) := by
  induction ts with
  | nil => intro m b; simp
  | cons t rest ih =>
    intro m b
    have hstep : scanStep f (m, b) t =
        if m < calculate_similarity f t.2 then (calculate_similarity f t.2, some t.1)
        else (m, b) := rfl
    by_cases hms : m < calculate_similarity f t.2
    · rw [List.foldl_cons, hstep, if_pos hms, ih]
      have hmax : max m (calculate_similarity f t.2) = calculate_similarity f t.2 :=
        max_eq_right (le_of_lt hms)
      simp only [List.map_cons, List.foldl_cons, hmax]
      have hle : calculate_similarity f t.2 ≤
          (rest.map (fun u => calculate_similarity f u.2)).foldl max
            (calculate_similarity f t.2) := le_foldl_max _ _
      by_cases hsM : calculate_similarity f t.2 =
          (rest.map (fun u => calculate_similarity f u.2)).foldl max
            (calculate_similarity f t.2)
      · rw [if_neg (by rw [← hsM]; exact lt_irrefl _),
          if_pos (lt_of_lt_of_le hms hle),
          List.find?_cons_of_pos _ (by simp only [decide_eq_true_eq]; exact hsM)]
        rfl
      · have hslt : calculate_similarity f t.2 <
            (rest.map (fun u => calculate_similarity f u.2)).foldl max
              (calculate_similarity f t.2) := lt_of_le_of_ne hle hsM
        rw [if_pos hslt, if_pos (lt_trans hms hslt),
          List.find?_cons_of_neg _ (by simp only [decide_eq_true_eq]; exact hsM)]
    · rw [List.foldl_cons, hstep, if_neg hms, ih]
      have hmax : max m (calculate_similarity f t.2) = m := max_eq_left (not_lt.mp hms)
      simp only [List.map_cons, List.foldl_cons, hmax]
      by_cases hmM : m < (rest.map (fun u => calculate_similarity f u.2)).foldl max m
      · rw [if_pos hmM, if_pos hmM, List.find?_cons_of_neg _ (by
          simp only [decide_eq_true_eq]
          intro heq
          have hsm : calculate_similarity f t.2 ≤ m := not_lt.mp hms
          rw [heq] at hsm
          exact absurd hmM (not_lt.mpr hsm))]
      · rw [if_neg hmM, if_neg hmM]

/-- When every template scores 0, the accumulator never moves. -/
lemma scanBest_zero (f : WebsiteFeatures) :
    ∀ ts : List (Nat × WebsiteFeatures),
      (∀ t ∈ ts, calculate_similarity f t.2 = 0) → scanBest f ts = (0, none)
  | [], _ => rfl
  | t :: rest, hz => by
    have h0 : scanStep f (0, none) t = (0, none) := by
      simp [scanStep, hz t (List.mem_cons_self _ _)]
    have htail := scanBest_zero f rest (fun u hu => hz u (List.mem_cons_of_mem _ hu))
    unfold scanBest at htail ⊢
    rw [List.foldl_cons, h0]
    exact htail

/- ================================================================
   Claim theorems: C1 and C10
   ================================================================ -/

/-- C1: the classify decision rule of `handle_message`.  Scanning the
supplied templates in order with strict `>` tracking, the decision equals:
assign the first-supplied template achieving the maximum score, with that
score, whenever the maximum reaches the threshold; create a new template
otherwise; and an empty template list always yields `createNew`.  The
hypotheses pin the configured regime the claim describes: a positive
threshold (the spec's 0.4–0.85 range) and SQLite row ids (never 0). -/
theorem classify_decision_rule (threshold : ℚ) (features : WebsiteFeatures)
    (templates : List (Nat × WebsiteFeatures))
    (hthr : 0 < threshold) (hids : ∀ t ∈ templates, t.1 ≠ 0) :
    classifyDecision threshold features [] = Decision.createNew ∧
    classifyDecision threshold features templates =
      (if threshold ≤ bestScoreSpec features templates then
        match firstBestTemplate features templates with
        | some t => Decision.assignToExisting t.1 (bestScoreSpec features templates)
        | none => Decision.createNew
      else Decision.createNew) := by
  refine ⟨rfl, ?_⟩
  unfold classifyDecision scanBest
  rw [scan_foldl_spec]
  rw [show (templates.map (fun u => calculate_similarity features u.2)).foldl max 0 =
    bestScoreSpec features templates from rfl]
  rw [show templates.find? (fun u => decide (calculate_similarity features u.2 =
    bestScoreSpec features templates)) = firstBestTemplate features templates from rfl]
  by_cases hth : threshold ≤ bestScoreSpec features templates
  · have h0 : 0 < bestScoreSpec features templates := lt_of_lt_of_le hthr hth
    rw [if_pos h0, if_pos hth]
    have hex : ∃ x ∈ templates, (fun t => decide (calculate_similarity features t.2 =
        bestScoreSpec features templates)) x = true := by
      rcases foldl_max_eq_or_mem
          (templates.map (fun u => calculate_similarity features u.2)) 0 with hz | hmem
      · have hz0 : bestScoreSpec features templates = 0 := hz
        rw [hz0] at h0
        exact absurd h0 (lt_irrefl 0)
      · obtain ⟨u, humem, hueq⟩ := List.mem_map.mp hmem
        refine ⟨u, humem, ?_⟩
        simp only [decide_eq_true_eq]
        exact hueq
    obtain ⟨t0, ht0⟩ := Option.isSome_iff_exists.mp (List.find?_isSome.mpr hex)
    have ht0f : firstBestTemplate features templates = some t0 := ht0
    rw [ht0f]
    have ht0mem : t0 ∈ templates := List.mem_of_find?_eq_some ht0
    simp only [Option.map_some']
    rw [if_pos ⟨hth, hids t0 ht0mem⟩]
  · rw [if_neg hth]
    by_cases h0 : 0 < bestScoreSpec features templates
    · rw [if_pos h0]
      cases hf : firstBestTemplate features templates with
      | none => rfl
      | some t0 =>
        simp only [Option.map_some']
        rw [if_neg (by intro hc; exact hth hc.1)]
    · rw [if_neg h0]

/-- Witness for C1 at a concrete input: threshold 2/5, two identical
templates with ids 1 and 2. -/
theorem classify_decision_rule_witness :
    classifyDecision (2/5) sampleRich [(1, sampleRich), (2, sampleRich)] =
      (if (2/5 : ℚ) ≤ bestScoreSpec sampleRich [(1, sampleRich), (2, sampleRich)] then
        match firstBestTemplate sampleRich [(1, sampleRich), (2, sampleRich)] with
        | some t => Decision.assignToExisting t.1
            (bestScoreSpec sampleRich [(1, sampleRich), (2, sampleRich)])
        | none => Decision.createNew
      else Decision.createNew) :=
  (classify_decision_rule (2/5) sampleRich [(1, sampleRich), (2, sampleRich)]
    (by norm_num) (by decide)).2

/-- C10: when every existing template scores exactly 0, the decision is
`createNew` for every threshold (even 0): no best-template id is ever
recorded, and the assignment branch requires one. -/
theorem zero_scores_create_new (threshold : ℚ) (features : WebsiteFeatures)
    (templates : List (Nat × WebsiteFeatures))
    (hzero : ∀ t ∈ templates, calculate_similarity features t.2 = 0) :
    classifyDecision threshold features templates = Decision.createNew := by
  unfold classifyDecision
  rw [scanBest_zero features templates hzero]

/-- Witness for C10 at a concrete input: threshold 0 and one
all-degenerate template scoring 0. -/
theorem zero_scores_create_new_witness :
    classifyDecision 0 sampleEmpty [(1, sampleEmpty)] = Decision.createNew :=
  zero_scores_create_new 0 sampleEmpty [(1, sampleEmpty)] (by
    intro t ht
    rw [List.mem_singleton] at ht
    subst ht
    norm_num [calculate_similarity, calculate_dom_similarity, calculate_css_similarity,
      calculate_responsive_similarity, calculate_layout_similarity, get_layout_sequence,
      get_layout_sequence_node, filter_layout_classes, extract_breakpoints,
      compare_structures, get_layout_structure, analyze_node, sampleEmpty,
      RespDict.mediaQueries])

/- ================================================================
   Claim theorems: C4 (bounds) and C5 (LCS characterization)
   ================================================================ -/

/-- C4: the score is exactly the fixed weighted sum
`0.5·dom + 0.3·css + 0.1·responsive + 0.1·layout` with no further
normalization, every sub-metric lies in `[0,1]`, and so does the total. -/
theorem score_bounds_weighted_sum (a b : WebsiteFeatures) :
    calculate_similarity a b =
      0.5 * calculate_dom_similarity a.dom_structure b.dom_structure +
      0.3 * calculate_css_similarity a.css_classes b.css_classes +
      0.1 * calculate_responsive_similarity a.responsive_features b.responsive_features +
      0.1 * calculate_layout_similarity a.dom_structure b.dom_structure ∧
    (0 ≤ calculate_dom_similarity a.dom_structure b.dom_structure ∧
      calculate_dom_similarity a.dom_structure b.dom_structure ≤ 1) ∧
    (0 ≤ calculate_css_similarity a.css_classes b.css_classes ∧
      calculate_css_similarity a.css_classes b.css_classes ≤ 1) ∧
    (0 ≤ calculate_responsive_similarity a.responsive_features b.responsive_features ∧
      calculate_responsive_similarity a.responsive_features b.responsive_features ≤ 1) ∧
    (0 ≤ calculate_layout_similarity a.dom_structure b.dom_structure ∧
      calculate_layout_similarity a.dom_structure b.dom_structure ≤ 1) ∧
    0 ≤ calculate_similarity a b ∧ calculate_similarity a b ≤ 1 :=
  ⟨rfl,
    ⟨calculate_dom_similarity_nonneg _ _, calculate_dom_similarity_le_one _ _⟩,
    ⟨calculate_css_similarity_nonneg _ _, calculate_css_similarity_le_one _ _⟩,
    ⟨calculate_responsive_similarity_nonneg _ _, calculate_responsive_similarity_le_one _ _⟩,
    ⟨calculate_layout_similarity_nonneg _ _, calculate_layout_similarity_le_one _ _⟩,
    calculate_similarity_nonneg a b, calculate_similarity_le_one a b⟩

/-- C5: the structural sub-metric equals `2·|LCS|/(len1+len2)` over the
depth-tagged layout sequences, and is 0 when both sequences are empty:
the recurrence the source's dynamic program computes is exactly the
length of a longest common subsequence (a common subsequence of that
length exists, and none is longer). -/
theorem dom_similarity_lcs_value (dom1 dom2 : DomNode) :
    ∃ n : Nat,
      (∃ l : List String, l.Sublist (get_layout_sequence dom1) ∧
        l.Sublist (get_layout_sequence dom2) ∧ l.length = n) ∧
      (∀ l : List String, l.Sublist (get_layout_sequence dom1) →
        l.Sublist (get_layout_sequence dom2) → l.length ≤ n) ∧
      calculate_dom_similarity dom1 dom2 =
        (if 0 < (get_layout_sequence dom1).length + (get_layout_sequence dom2).length then
          (2 * n : ℚ) /
            (((get_layout_sequence dom1).length : ℚ) + ((get_layout_sequence dom2).length : ℚ))
        else 0) := by
  refine ⟨lcsLen (get_layout_sequence dom1) (get_layout_sequence dom2), ?_, ?_, rfl⟩
  · exact lcsLen_exists_common _ _
  · intro l hl1 hl2
    exact lcsLen_ge_common hl1 hl2

/- ================================================================
   Claim theorems: C2 (symmetry)
   ================================================================ -/

lemma dom_zero_when_malformed :
    calculate_dom_similarity DomNode.malformed DomNode.malformed = 0 := by
  simp only [calculate_dom_similarity]
  rw [show get_layout_sequence DomNode.malformed = [] from rfl]
  simp

lemma css_zero_when_empty : calculate_css_similarity [] [] = 0 := by
  simp [calculate_css_similarity, filter_layout_classes]

lemma layout_zero_when_malformed :
    calculate_layout_similarity DomNode.malformed DomNode.malformed = 0 := by
  simp only [calculate_layout_similarity, get_layout_structure]
  rw [show analyze_node DomNode.malformed "root" = [] from rfl]
  simp [compare_structures]

lemma resp_sampleBpA_sampleBpB :
    calculate_responsive_similarity sampleBpA.responsive_features
      sampleBpB.responsive_features = 1 := by
  show calculate_responsive_similarity
    (RespDict.withKeys none ["(min-width: 0px)", "(min-width: 200px)"])
    (RespDict.withKeys none ["(min-width: 100px)"]) = 1
  simp only [calculate_responsive_similarity, RespDict.mediaQueries]
  rw [if_neg (by decide)]
  rw [show ((extract_breakpoints ["(min-width: 0px)", "(min-width: 200px)"]).filter
      (fun bp1 : ℕ => ∃ bp2 ∈ extract_breakpoints ["(min-width: 100px)"],
        ((bp1 : ℤ) - (bp2 : ℤ)).natAbs ≤ 100)).card = 2 from by decide]
  rw [show (extract_breakpoints ["(min-width: 0px)", "(min-width: 200px)"]).card = 2 from by decide]
  rw [show (extract_breakpoints ["(min-width: 100px)"]).card = 1 from by decide]
  norm_num

lemma resp_sampleBpB_sampleBpA :
    calculate_responsive_similarity sampleBpB.responsive_features
      sampleBpA.responsive_features = 1/2 := by
  show calculate_responsive_similarity
    (RespDict.withKeys none ["(min-width: 100px)"])
    (RespDict.withKeys none ["(min-width: 0px)", "(min-width: 200px)"]) = 1/2
  simp only [calculate_responsive_similarity, RespDict.mediaQueries]
  rw [if_neg (by decide)]
  rw [show ((extract_breakpoints ["(min-width: 100px)"]).filter
      (fun bp1 : ℕ => ∃ bp2 ∈ extract_breakpoints ["(min-width: 0px)", "(min-width: 200px)"],
        ((bp1 : ℤ) - (bp2 : ℤ)).natAbs ≤ 100)).card = 1 from by decide]
  rw [show (extract_breakpoints ["(min-width: 100px)"]).card = 1 from by decide]
  rw [show (extract_breakpoints ["(min-width: 0px)", "(min-width: 200px)"]).card = 2 from by decide]
  norm_num

/-- C2 counterexample: two feature vectors differing only in their
media-query breakpoint sets ({0,200} vs {100}) get different scores in
the two argument orders (1/10 vs 1/20): the responsive sub-metric counts
matched elements of its *first* argument only. -/
theorem score_symmetry_counterexample :
    calculate_similarity sampleBpA sampleBpB ≠ calculate_similarity sampleBpB sampleBpA := by
  have h1 : calculate_similarity sampleBpA sampleBpB = 1/10 := by
    unfold calculate_similarity
    rw [show sampleBpA.dom_structure = DomNode.malformed from rfl,
      show sampleBpB.dom_structure = DomNode.malformed from rfl,
      show sampleBpA.css_classes = [] from rfl,
      show sampleBpB.css_classes = [] from rfl,
      dom_zero_when_malformed, css_zero_when_empty, layout_zero_when_malformed,
      resp_sampleBpA_sampleBpB]
    norm_num
  have h2 : calculate_similarity sampleBpB sampleBpA = 1/20 := by
    unfold calculate_similarity
    rw [show sampleBpA.dom_structure = DomNode.malformed from rfl,
      show sampleBpB.dom_structure = DomNode.malformed from rfl,
      show sampleBpA.css_classes = [] from rfl,
      show sampleBpB.css_classes = [] from rfl,
      dom_zero_when_malformed, css_zero_when_empty, layout_zero_when_malformed,
      resp_sampleBpB_sampleBpA]
    norm_num
  rw [h1, h2]
  norm_num

/-- C2 amended: the dom, css and layout sub-metrics are symmetric, and
the whole score is symmetric exactly up to the responsive sub-metric:
`score(a,b) − score(b,a) = 0.1·(resp(a,b) − resp(b,a))`.  (The responsive
sub-metric itself is not symmetric, as the counterexample above shows.) -/
theorem score_symmetry_up_to_responsive (a b : WebsiteFeatures) :
    calculate_dom_similarity a.dom_structure b.dom_structure =
      calculate_dom_similarity b.dom_structure a.dom_structure ∧
    calculate_css_similarity a.css_classes b.css_classes =
      calculate_css_similarity b.css_classes a.css_classes ∧
    calculate_layout_similarity a.dom_structure b.dom_structure =
      calculate_layout_similarity b.dom_structure a.dom_structure ∧
    calculate_similarity a b - calculate_similarity b a =
      0.1 * (calculate_responsive_similarity a.responsive_features b.responsive_features -
        calculate_responsive_similarity b.responsive_features a.responsive_features) := by
  refine ⟨calculate_dom_similarity_comm _ _, calculate_css_similarity_comm _ _,
    calculate_layout_similarity_comm _ _, ?_⟩
  unfold calculate_similarity
  rw [calculate_dom_similarity_comm a.dom_structure b.dom_structure,
    calculate_css_similarity_comm a.css_classes b.css_classes,
    calculate_layout_similarity_comm a.dom_structure b.dom_structure]
  ring

/- ================================================================
   Claim theorems: C3 (reflexivity)
   ================================================================ -/

/-- C3 counterexample: a feature vector with every field populated (url,
DOM tree, classes, JS library, media query, colors, fonts, metrics) whose
self-score is 1/10, not 1.0: its DOM has no structural tag, its class has
no layout keyword, and its media query has no `min-width` breakpoint, so
three of the four sub-metrics degrade to 0 even against itself. -/
theorem score_reflexivity_counterexample :
    calculate_similarity samplePlain samplePlain ≠ 1 := by
  have hdom : calculate_dom_similarity samplePlain.dom_structure samplePlain.dom_structure = 0 := by
    simp only [calculate_dom_similarity]
    rw [show get_layout_sequence samplePlain.dom_structure = [] from by decide]
    simp
  have hcss : calculate_css_similarity samplePlain.css_classes samplePlain.css_classes = 0 := by
    simp only [calculate_css_similarity]
    rw [if_pos (Or.inl (by decide))]
  have hresp : calculate_responsive_similarity samplePlain.responsive_features
      samplePlain.responsive_features = 0 := by
    show calculate_responsive_similarity
      (RespDict.withKeys (some "width=device-width") ["(max-width: 500px)"])
      (RespDict.withKeys (some "width=device-width") ["(max-width: 500px)"]) = 0
    simp only [calculate_responsive_similarity, RespDict.mediaQueries]
    rw [if_pos (Or.inl (by decide))]
  have hlay : calculate_layout_similarity samplePlain.dom_structure
      samplePlain.dom_structure = 1 := by
    unfold calculate_layout_similarity
    exact compare_structures_self (by decide)
  unfold calculate_similarity
  rw [hdom, hcss, hresp, hlay]
  norm_num

/-- C3 amended: reflexivity holds exactly when the derived views are
non-empty: if the layout sequence is non-empty, the layout-keyword class
set is non-empty, and the breakpoint set is non-empty, then
`score(a,a) = 1`. -/
theorem score_reflexive_nonempty_views (a : WebsiteFeatures)
    (h1 : get_layout_sequence a.dom_structure ≠ [])
    (h2 : filter_layout_classes a.css_classes ≠ ∅)
    (h3 : extract_breakpoints a.responsive_features.mediaQueries ≠ ∅) :
    calculate_similarity a a = 1 := by
  have hdom := calculate_dom_similarity_self h1
  have hcss := calculate_css_similarity_self h2
  have hresp : calculate_responsive_similarity a.responsive_features
      a.responsive_features = 1 := by
    cases hr : a.responsive_features with
    | emptyDict =>
      rw [hr] at h3
      exact absurd (by simp [extract_breakpoints, RespDict.mediaQueries]) h3
    | withKeys v q =>
      rw [hr] at h3
      exact calculate_responsive_similarity_self (by simpa [RespDict.mediaQueries] using h3)
  have hlay : calculate_layout_similarity a.dom_structure a.dom_structure = 1 := by
    cases hd : a.dom_structure with
    | malformed =>
      rw [hd] at h1
      exact absurd rfl h1
    | elem tag children =>
      unfold calculate_layout_similarity
      apply compare_structures_self
      simp [get_layout_structure, analyze_node]
  unfold calculate_similarity
  rw [hdom, hcss, hresp, hlay]
  norm_num

/-- Witness for the amended C3 at a concrete input: `sampleRich` has all
derived views non-empty and scores exactly 1 against itself. -/
theorem score_reflexive_nonempty_views_witness :
    calculate_similarity sampleRich sampleRich = 1 :=
  score_reflexive_nonempty_views sampleRich (by decide) (by decide) (by decide)

/- ================================================================
   Claim theorems: C6, C7, C8
   ================================================================ -/

lemma score_sampleEmpty_self : calculate_similarity sampleEmpty sampleEmpty = 0 := by
  norm_num [calculate_similarity, calculate_dom_similarity, calculate_css_similarity,
    calculate_responsive_similarity, calculate_layout_similarity, get_layout_sequence,
    get_layout_sequence_node, filter_layout_classes, extract_breakpoints,
    compare_structures, get_layout_structure, analyze_node, sampleEmpty,
    RespDict.mediaQueries]

/-- C6, the code at the failing input: one stored representative whose
dataclass conversion raises makes the whole classification abort
(`Except.error`), although a healthy template follows it in the scan;
with the corrupt row absent the same classification completes normally.
The claim said the corrupt template alone is skipped with score 0. -/
theorem malformed_representative_aborts :
    classify_stored (2/5) sampleEmpty
        [(1, (none : StoredRepresentative)), (2, (some sampleEmpty : StoredRepresentative))] =
      Except.error () ∧
    classify_stored (2/5) sampleEmpty [(2, (some sampleEmpty : StoredRepresentative))] =
      Except.ok Decision.createNew := by
  constructor
  · rfl
  · unfold classify_stored
    rw [show scan_stored_templates sampleEmpty
        [(2, (some sampleEmpty : StoredRepresentative))] (0, none) =
      Except.ok (if (0 : ℚ) < calculate_similarity sampleEmpty sampleEmpty
        then (calculate_similarity sampleEmpty sampleEmpty, some 2) else (0, none)) from rfl]
    simp only [score_sampleEmpty_self]
    rw [if_neg (lt_irrefl 0)]

/-- C7, the code at the failing input: classifying the same URL twice.
The first run creates template 1; the second run's `INSERT` violates the
UNIQUE url constraint, `add_website` re-raises, and the handler reports
an error (`none`) instead of returning the existing assignment.  State is
unchanged, so the template count stays 1 — but no `templateId` is
returned at all. -/
theorem duplicate_url_second_run_errors :
    ∃ db1 : DBState,
      handle_message_classify (2/5) DBState.empty 1 "https://dup.example" sampleEmpty =
        (db1, some (ClassifyOutcome.created 1)) ∧
      handle_message_classify (2/5) db1 2 "https://dup.example" sampleEmpty = (db1, none) ∧
      db1.templates.map (fun t => t.website_count) = [1] := by
  refine ⟨_, rfl, ?_, ?_⟩ <;> rfl

/-- A database with one template (id 1, one member website id 1) and one
not-yet-assigned website (id 2), ready for an assignment. -/
def dbPreAssign : DBState :=
  ⟨[⟨1, "https://a.example", some 1, 1, 1, "analyzed", sampleEmpty⟩,
    ⟨2, "https://b.example", none, 2, 2, "analyzed", sampleEmpty⟩],
   [⟨1, 1, 1, sampleEmpty, 1⟩], 3, 2⟩

/-- C8, the code at the failing input: the link write and the count
update are two separate transactions.  Injecting a failure into the
second leaves the link committed (website 2 now points at template 1)
while the stored count still reads 1 against 2 actual members — the
partial state the claim says cannot exist.  Without the failure both
land and the count reads 2. -/
theorem assign_commit_not_atomic :
    (assign_commit_steps dbPreAssign 5 2 1 true).2 = false ∧
    (assign_commit_steps dbPreAssign 5 2 1 true).1.websites.map (fun w => w.template_id) =
      [some 1, some 1] ∧
    (assign_commit_steps dbPreAssign 5 2 1 true).1.templates.map (fun t => t.website_count) =
      [1] ∧
    ((assign_commit_steps dbPreAssign 5 2 1 true).1.websites.filter
      (fun w => w.template_id = some 1)).length = 2 ∧
    (assign_commit_steps dbPreAssign 5 2 1 false).1.templates.map (fun t => t.website_count) =
      [2] :=
  ⟨rfl, rfl, rfl, rfl, rfl⟩

/- ================================================================
   Claim C9: the member-count invariant
   ================================================================ -/

/-- C9 counterexample: one classification creates template 1 with its
single member website; `cleanup_old_records` then deletes the website
but leaves the template row and its count untouched, so the stored count
1 disagrees with the 0 remaining members. -/
theorem member_count_cleanup_counterexample :
    ¬ memberCountInv (execOps (2/5) DBState.empty
      [Op.classify 1 "https://one.example" sampleEmpty, Op.cleanup 10]) := by
  intro hinv
  have hstate : execOps (2/5) DBState.empty
      [Op.classify 1 "https://one.example" sampleEmpty, Op.cleanup 10] =
      ⟨[], [⟨1, 1, 1, sampleEmpty, 1⟩], 2, 2⟩ := rfl
  rw [hstate] at hinv
  have h := (hinv ⟨1, 1, 1, sampleEmpty, 1⟩ (by simp)).1
  simp at h

lemma filter_length_update_ne (ws : List WebsiteRow) (wid : Nat)
    (g : WebsiteRow → WebsiteRow) (j : Nat)
    (h : ∀ w ∈ ws, w.id = wid → w.template_id ≠ some j ∧ (g w).template_id ≠ some j) :
    ((ws.map (fun w => if w.id = wid then g w else w)).filter
      (fun w => w.template_id = some j)).length =
    (ws.filter (fun w => w.template_id = some j)).length := by
  induction ws with
  | nil => rfl
  | cons w ws ih =>
    have ihh := ih (fun u hu hh => h u (List.mem_cons_of_mem _ hu) hh)
    by_cases hid : w.id = wid
    · obtain ⟨h1, h2⟩ := h w (List.mem_cons_self _ _) hid
      simp only [List.map_cons, if_pos hid, List.filter_cons]
      rw [if_neg (by simpa using h2), if_neg (by simpa using h1)]
      exact ihh
    · simp only [List.map_cons, if_neg hid, List.filter_cons]
      by_cases hp : w.template_id = some j
      · rw [if_pos (by simpa using hp), if_pos (by simpa using hp)]
        simpa using ihh
      · rw [if_neg (by simpa using hp), if_neg (by simpa using hp)]
        exact ihh

lemma countP_id_unique (ws : List WebsiteRow) (wid : Nat)
    (hpw : ws.Pairwise (fun a b => a.id ≠ b.id)) (hmem : ∃ w ∈ ws, w.id = wid) :
    ws.countP (fun w => decide (w.id = wid)) = 1 := by
  induction ws with
  | nil => simp at hmem
  | cons w ws ih =>
    rw [List.pairwise_cons] at hpw
    rw [List.countP_cons]
    by_cases hid : w.id = wid
    · have hz : ws.countP (fun w => decide (w.id = wid)) = 0 := by
        apply List.countP_eq_zero.mpr
        intro u hu
        simp only [decide_eq_true_eq]
        intro hc
        exact hpw.1 u hu (by rw [hid, hc])
      simp [hz, hid]
    · obtain ⟨w0, hw0, hw0id⟩ := hmem
      rcases List.mem_cons.mp hw0 with heq | hw0m
      · rw [heq] at hw0id
        exact absurd hw0id hid
      · simp [hid, ih hpw.2 ⟨w0, hw0m, hw0id⟩]

lemma add_website_preserves (db : DBState) (now : Nat) (url : String) (f : WebsiteFeatures)
    (hwf : dbWellFormed db) (hinv : memberCountInv db)
    {db1 : DBState} {wid : Nat}
    (h : add_website db now url f = Except.ok (db1, wid)) :
    dbWellFormed db1 ∧ memberCountInv db1 ∧
    db1.templates = db.templates ∧ db1.nextTemplateId = db.nextTemplateId ∧
    (∀ w ∈ db1.websites, w.id = wid → w.template_id = none) ∧
    (∃ w ∈ db1.websites, w.id = wid) := by
  obtain ⟨hTpw, hTlt, hWpw, hWlt, hLlt⟩ := hwf
  unfold add_website at h
  split at h
  · simp at h
  · simp only [Except.ok.injEq, Prod.mk.injEq] at h
    obtain ⟨hdb1, hwid⟩ := h
    subst hdb1
    subst hwid
    refine ⟨⟨hTpw, hTlt, ?_, ?_, ?_⟩, ?_, rfl, rfl, ?_, ?_⟩
    · rw [List.pairwise_append]
      refine ⟨hWpw, List.pairwise_singleton _ _, ?_⟩
      intro a ha b hb
      rw [List.mem_singleton] at hb
      subst hb
      exact fun hc => absurd (hc ▸ hWlt a ha) (lt_irrefl _)
    · intro w hw
      rcases List.mem_append.mp hw with hw | hw
      · exact lt_trans (hWlt w hw) (Nat.lt_succ_self _)
      · rw [List.mem_singleton] at hw
        subst hw
        exact Nat.lt_succ_self _
    · intro w hw j hj
      rcases List.mem_append.mp hw with hw | hw
      · exact hLlt w hw j hj
      · rw [List.mem_singleton] at hw
        subst hw
        simp at hj
    · intro t ht
      have := hinv t ht
      rw [List.filter_append]
      simpa using this
    · intro w hw hwid
      rcases List.mem_append.mp hw with hw | hw
      · exact absurd hwid (by have := hWlt w hw; omega)
      · rw [List.mem_singleton] at hw
        subst hw
        rfl
    · exact ⟨⟨db.nextWebsiteId, url, none, now, now, "analyzed", f⟩,
        List.mem_append_right _ (List.mem_singleton_self _), rfl⟩

lemma assign_preserves (db : DBState) (now wid tid : Nat)
    (hwf : dbWellFormed db) (hinv : memberCountInv db)
    (hwmem : ∃ w ∈ db.websites, w.id = wid)
    (hwnone : ∀ w ∈ db.websites, w.id = wid → w.template_id = none)
    (htid : ∃ t ∈ db.templates, t.id = tid) :
    dbWellFormed (update_template_count (update_website_template db now wid tid) now tid) ∧
    memberCountInv (update_template_count (update_website_template db now wid tid) now tid) := by
  obtain ⟨hTpw, hTlt, hWpw, hWlt, hLlt⟩ := hwf
  obtain ⟨t1, ht1mem, ht1id⟩ := htid
  have htidlt : tid < db.nextTemplateId := ht1id ▸ hTlt t1 ht1mem
  have hWid : ∀ w : WebsiteRow,
      ((if w.id = wid then
        (⟨w.id, w.url, some tid, w.first_analyzed_at, now, w.status, w.features⟩ : WebsiteRow)
      else w)).id = w.id := by
    intro w
    by_cases hw : w.id = wid <;> simp [hw]
  constructor
  · refine ⟨?_, ?_, ?_, ?_, ?_⟩
    · simp only [update_template_count, update_website_template]
      rw [List.pairwise_map]
      refine hTpw.imp ?_
      intro a b hab
      by_cases ha : a.id = tid <;> by_cases hb : b.id = tid <;> simpa [ha, hb] using hab
    · simp only [update_template_count, update_website_template]
      intro t ht
      obtain ⟨t0, ht0, hmap⟩ := List.mem_map.mp ht
      subst hmap
      by_cases h0 : t0.id = tid <;> simpa [h0] using hTlt t0 ht0
    · simp only [update_template_count, update_website_template]
      rw [List.pairwise_map]
      refine hWpw.imp ?_
      intro a b hab
      rw [hWid, hWid]
      exact hab
    · simp only [update_template_count, update_website_template]
      intro w hw
      obtain ⟨w0, hw0, hmap⟩ := List.mem_map.mp hw
      subst hmap
      rw [hWid]
      exact hWlt w0 hw0
    · simp only [update_template_count, update_website_template]
      intro w hw j hj
      obtain ⟨w0, hw0, hmap⟩ := List.mem_map.mp hw
      subst hmap
      by_cases h0 : w0.id = wid
      · rw [if_pos h0] at hj
        simp at hj
        subst hj
        exact htidlt
      · rw [if_neg h0] at hj
        exact hLlt w0 hw0 j hj
  · intro t ht
    simp only [update_template_count, update_website_template] at ht ⊢
    obtain ⟨t0, ht0, hmap⟩ := List.mem_map.mp ht
    subst hmap
    by_cases h0 : t0.id = tid
    · rw [if_pos h0]
      constructor
      · simp only [h0]
      · obtain ⟨w0, hw0, hw0id⟩ := hwmem
        have hmem2 : (if w0.id = wid then
            (⟨w0.id, w0.url, some tid, w0.first_analyzed_at, now, w0.status,
              w0.features⟩ : WebsiteRow) else w0) ∈
            db.websites.map (fun w => if w.id = wid then
              (⟨w.id, w.url, some tid, w.first_analyzed_at, now, w.status,
                w.features⟩ : WebsiteRow)
            else w) :=
          List.mem_map_of_mem _ hw0
        rw [if_pos hw0id] at hmem2
        have hfmem : (⟨w0.id, w0.url, some tid, w0.first_analyzed_at, now, w0.status,
            w0.features⟩ : WebsiteRow) ∈ (db.websites.map (fun w => if w.id = wid then
            (⟨w.id, w.url, some tid, w.first_analyzed_at, now, w.status, w.features⟩ : WebsiteRow)
          else w)).filter (fun w => w.template_id = some tid) :=
          List.mem_filter.mpr ⟨hmem2, by simp⟩
        have := List.ne_nil_of_mem hfmem
        have hpos := List.length_pos.mpr this
        exact hpos
    · rw [if_neg h0]
      have hkeep := hinv t0 ht0
      have hflen := filter_length_update_ne db.websites wid
        (fun w => ⟨w.id, w.url, some tid, w.first_analyzed_at, now, w.status, w.features⟩)
        t0.id
        (by
          intro w hw hid
          refine ⟨?_, ?_⟩
          · rw [hwnone w hw hid]
            simp
          · simp only
            intro hc
            rw [Option.some_inj] at hc
            exact h0 (hc ▸ rfl))
      exact ⟨hkeep.1.trans hflen.symm, hkeep.2⟩

lemma create_preserves (db : DBState) (now wid : Nat)
    (hwf : dbWellFormed db) (hinv : memberCountInv db)
    (hwnone : ∀ w ∈ db.websites, w.id = wid → w.template_id = none)
    {db2 : DBState} {tid : Nat}
    (h : create_template_from_website db now wid = Except.ok (db2, tid)) :
    dbWellFormed db2 ∧ memberCountInv db2 := by
  obtain ⟨hTpw, hTlt, hWpw, hWlt, hLlt⟩ := hwf
  unfold create_template_from_website at h
  cases hf : db.websites.find? (fun w => w.id = wid) with
  | none => rw [hf] at h; simp at h
  | some w0 =>
    rw [hf] at h
    simp only [Except.ok.injEq, Prod.mk.injEq] at h
    obtain ⟨hdb2, htid⟩ := h
    subst hdb2
    subst htid
    have hw0mem : w0 ∈ db.websites := List.mem_of_find?_eq_some hf
    have hw0id : w0.id = wid := by
      have := List.find?_some hf
      simpa using this
    have hWid2 : ∀ w : WebsiteRow,
        ((if w.id = wid then
          (⟨w.id, w.url, some db.nextTemplateId, w.first_analyzed_at, w.last_updated_at,
            w.status, w.features⟩ : WebsiteRow)
        else w)).id = w.id := by
      intro w
      by_cases hw : w.id = wid <;> simp [hw]
    constructor
    · refine ⟨?_, ?_, ?_, ?_, ?_⟩
      · rw [List.pairwise_append]
        refine ⟨hTpw, List.pairwise_singleton _ _, ?_⟩
        intro a ha b hb
        rw [List.mem_singleton] at hb
        subst hb
        have := hTlt a ha
        simp only
        omega
      · intro t ht
        rcases List.mem_append.mp ht with ht | ht
        · exact lt_trans (hTlt t ht) (Nat.lt_succ_self _)
        · rw [List.mem_singleton] at ht
          subst ht
          exact Nat.lt_succ_self _
      · rw [List.pairwise_map]
        refine hWpw.imp ?_
        intro a b hab
        rw [hWid2, hWid2]
        exact hab
      · intro w hw
        obtain ⟨u, hu, hmap⟩ := List.mem_map.mp hw
        subst hmap
        rw [hWid2]
        exact hWlt u hu
      · intro w hw j hj
        obtain ⟨u, hu, hmap⟩ := List.mem_map.mp hw
        subst hmap
        show j < db.nextTemplateId + 1
        by_cases h0 : u.id = wid
        · rw [if_pos h0] at hj
          simp at hj
          omega
        · rw [if_neg h0] at hj
          exact lt_trans (hLlt u hu j hj) (Nat.lt_succ_self _)
    · intro t ht
      rcases List.mem_append.mp ht with ht | ht
      · have hkeep := hinv t ht
        have htlt := hTlt t ht
        have hflen := filter_length_update_ne db.websites wid
          (fun w => ⟨w.id, w.url, some db.nextTemplateId, w.first_analyzed_at,
            w.last_updated_at, w.status, w.features⟩)
          t.id
          (by
            intro w hw hid
            refine ⟨?_, ?_⟩
            · rw [hwnone w hw hid]
              simp
            · simp only
              intro hc
              rw [Option.some_inj] at hc
              omega)
        exact ⟨hkeep.1.trans hflen.symm, hkeep.2⟩
      · rw [List.mem_singleton] at ht
        subst ht
        simp only
        constructor
        · have hc1 : ((db.websites.map (fun w => if w.id = wid then
              (⟨w.id, w.url, some db.nextTemplateId, w.first_analyzed_at, w.last_updated_at,
                w.status, w.features⟩ : WebsiteRow)
            else w)).filter (fun w => w.template_id = some db.nextTemplateId)).length =
              db.websites.countP (fun w => decide (w.id = wid)) := by
            rw [← List.countP_eq_length_filter, List.countP_map]
            apply List.countP_congr
            intro w hw
            simp only [Function.comp, decide_eq_true_eq]
            constructor
            · intro hcl
              by_cases h0 : w.id = wid
              · exact h0
              · rw [if_neg h0] at hcl
                exact absurd (hLlt w hw _ hcl) (by omega)
            · intro h0
              rw [if_pos h0]
          rw [hc1, countP_id_unique db.websites wid hWpw ⟨w0, hw0mem, hw0id⟩]
        · omega

lemma classifyDecision_assign_mem {threshold : ℚ} {f : WebsiteFeatures}
    {ts : List (Nat × WebsiteFeatures)} {tid : Nat} {sim : ℚ}
    (h : classifyDecision threshold f ts = Decision.assignToExisting tid sim) :
    ∃ u ∈ ts, u.1 = tid := by
  unfold classifyDecision scanBest at h
  rw [scan_foldl_spec] at h
  by_cases h0 : 0 < (ts.map (fun u => calculate_similarity f u.2)).foldl max 0
  · rw [if_pos h0] at h
    cases hf : ts.find? (fun u => decide (calculate_similarity f u.2 =
        (ts.map (fun u => calculate_similarity f u.2)).foldl max 0)) with
    | none =>
      rw [hf] at h
      simp at h
    | some t0 =>
      rw [hf] at h
      simp only [Option.map_some'] at h
      by_cases hc : threshold ≤ (ts.map (fun u => calculate_similarity f u.2)).foldl max 0 ∧
          t0.1 ≠ 0
      · rw [if_pos hc] at h
        refine ⟨t0, List.mem_of_find?_eq_some hf, ?_⟩
        cases h
        rfl
      · rw [if_neg hc] at h
        simp at h
  · rw [if_neg h0] at h
    simp at h

lemma get_all_templates_mem {db : DBState} {u : Nat × WebsiteFeatures}
    (h : u ∈ get_all_templates db) : ∃ t ∈ db.templates, t.id = u.1 := by
  unfold get_all_templates at h
  obtain ⟨t, htmem, hmap⟩ := List.mem_filterMap.mp h
  cases hm : min_member db t.id with
  | none => rw [hm] at hmap; simp at hmap
  | some w =>
    rw [hm] at hmap
    simp only [Option.some_inj] at hmap
    exact ⟨t, htmem, by rw [← hmap]⟩

lemma handle_message_preserves (threshold : ℚ) (db : DBState) (now : Nat)
    (url : String) (f : WebsiteFeatures)
    (hwf : dbWellFormed db) (hinv : memberCountInv db) :
    dbWellFormed (handle_message_classify threshold db now url f).1 ∧
    memberCountInv (handle_message_classify threshold db now url f).1 := by
  unfold handle_message_classify
  cases ha : add_website db now url f with
  | error e => exact ⟨hwf, hinv⟩
  | ok p =>
    obtain ⟨db1, wid⟩ := p
    obtain ⟨hwf1, hinv1, hts1, hnt1, hnone1, hmem1⟩ :=
      add_website_preserves db now url f hwf hinv ha
    dsimp only
    cases hd : classifyDecision threshold f (get_all_templates db1) with
    | assignToExisting tid sim =>
      obtain ⟨u, humem, huid⟩ := classifyDecision_assign_mem hd
      obtain ⟨t, htmem, htid⟩ := get_all_templates_mem humem
      dsimp only
      exact assign_preserves db1 now wid tid hwf1 hinv1 hmem1 hnone1
        ⟨t, htmem, by rw [htid, huid]⟩
    | createNew =>
      dsimp only
      cases hc : create_template_from_website db1 now wid with
      | error e => exact ⟨hwf1, hinv1⟩
      | ok p2 =>
        obtain ⟨db2, tid2⟩ := p2
        dsimp only
        exact create_preserves db1 now wid hwf1 hinv1 hnone1 hc

lemma execOps_preserves (threshold : ℚ) :
    ∀ (ops : List Op) (db : DBState), (∀ op ∈ ops, op.isCleanup = false) →
      dbWellFormed db → memberCountInv db →
      dbWellFormed (execOps threshold db ops) ∧ memberCountInv (execOps threshold db ops)
  | [], _, _, hwf, hinv => ⟨hwf, hinv⟩
  | op :: ops, db, hops, hwf, hinv => by
    cases op with
    | classify now url f =>
      have h1 := handle_message_preserves threshold db now url f hwf hinv
      exact execOps_preserves threshold ops _
        (fun o ho => hops o (List.mem_cons_of_mem _ ho)) h1.1 h1.2
    | cleanup cutoff =>
      exact absurd (hops _ (List.mem_cons_self _ _)) (by simp [Op.isCleanup])

/-- C9 amended: for every sequence of classification operations — no
record cleanup — starting from a well-formed state satisfying the
invariant, every template's stored `website_count` equals the number of
websites assigned to it, and is at least 1.  (`cleanup_old_records`
breaks the invariant, as the counterexample above shows: it deletes
website rows without touching template counts.) -/
theorem member_count_inv_no_cleanup (threshold : ℚ) (db : DBState) (ops : List Op)
    (hwf : dbWellFormed db) (hinv : memberCountInv db)
    (hops : ∀ op ∈ ops, op.isCleanup = false) :
    memberCountInv (execOps threshold db ops) :=
  (execOps_preserves threshold ops db hops hwf hinv).2

/-- Witness for the amended C9 at a concrete input: two classifications
from the empty database. -/
theorem member_count_inv_no_cleanup_witness :
    memberCountInv (execOps (2/5) DBState.empty
      [Op.classify 1 "https://one.example" sampleEmpty,
       Op.classify 2 "https://two.example" sampleEmpty]) :=
  member_count_inv_no_cleanup (2/5) DBState.empty
    [Op.classify 1 "https://one.example" sampleEmpty,
     Op.classify 2 "https://two.example" sampleEmpty]
    (by
      refine ⟨?_, ?_, ?_, ?_, ?_⟩ <;> simp [DBState.empty])
    (by
      intro t ht
      simp [DBState.empty] at ht)
    (by
      intro op hop
      rcases List.mem_cons.mp hop with h | h
      · rw [h]; rfl
      · rcases List.mem_cons.mp h with h2 | h2
        · rw [h2]; rfl
        · simp at h2)
